import Mathlib

/-!
Formal model of the RadioBoxPayment order-settlement engine and the
payout/transfer flow (`app/routes.py`, with the row types of `app/models.py`
and the notification helper of `app/utils.py`).

Monetary amounts are modelled as exact rationals (`ℚ`).  The relational store
is a record of row lists.  The staging behaviour of `db.session` is modelled
by computing the candidate rows and user states first and installing them in
the store only at the single commit point (`routes.py:412` for settlement,
`routes.py:96` and `routes.py:322` for transfer/payout); every error return
leaves the store unchanged, which models both the explicit rollback of
`routes.py:417` and the teardown rollback of uncommitted sessions after an
early `return`.

Note on `User.fcm_token`: the checked-in `app/models.py` is stale relative to
its callers (it also imports `app/extensions.py`, which is absent from the
tree).  The `fcm_token` column is written by `signup_with_google_token`
(`routes.py:550`) and `update_fcm_token` (`routes.py:891`) and read by
`get_fcm_token` (`routes.py:506`) and `on_item_sold` (`utils.py:72`), so the
model includes it as an optional string, following those call sites.
-/

set_option maxRecDepth 4000

deriving instance DecidableEq for Except

namespace RadioBox

/-- Row of `users` (`models.py:6-19`), restricted to the fields the settlement
and payout/transfer flows touch: the primary key, the withdrawable balance
(`account_balance`, `models.py:19`) and the FCM device token (see the module
docstring). -/
structure User where
  id : Nat
  account_balance : ℚ
  fcm_token : Option String
deriving Repr, DecidableEq

/-- Row of `marketplace_items` (`models.py:23-48`), restricted to the fields
the settlement engine reads: `id` (caller-supplied string key), `name`,
`price` and the owning seller id `userId`. -/
structure MarketplaceItem where
  id : String
  name : String
  price : ℚ
  userId : Nat
deriving Repr, DecidableEq

/-- Row of `payments` (`models.py:51-58`).  The `transaction_date` column is
wall-clock time and is not modelled. -/
structure Payment where
  marketplace_item_id : String
  amount : ℚ
  status : String
  order_id : Nat
deriving Repr, DecidableEq

/-- Row of `orders` (`models.py:61-68`).  The `created_at` column is
wall-clock time and is not modelled. -/
structure Order where
  id : Nat
  user_id : Nat
  total_amount : ℚ
  status : String
deriving Repr, DecidableEq

/-- Row of `sales_transactions` (`models.py:71-80`).  The `transaction_date`
column is wall-clock time and is not modelled. -/
structure SalesTransaction where
  item_id : String
  user_id : Nat
  order_id : Nat
  your_share : ℚ
  seller_share : ℚ
deriving Repr, DecidableEq

/-- An FCM push message as built by `utils.send_fcm_message`
(`utils.py:28-38`).  Delivery is fire-and-forget: `messaging.send` is wrapped
in `try/except` (`utils.py:39-43`), so a delivery failure never propagates to
the caller; emission of the message value is all that is observable. -/
structure FcmMsg where
  token : String
  title : String
  body : String
  notification_type : String
deriving Repr, DecidableEq

/-- The relational store: the tables the settlement and payout flows touch,
plus the autoincrement counter that `db.session.flush()` uses to materialise
`order.id` (`routes.py:358`). -/
structure Store where
  users : List User
  items : List MarketplaceItem
  orders : List Order
  payments : List Payment
  salesTransactions : List SalesTransaction
  nextOrderId : Nat
deriving Repr, DecidableEq

/-- One entry of the request `items` list (`routes.py:361-363`).  Each field
is optional because the code reads it with `item.get(...)`. -/
structure SettleItem where
  itemId : Option String
  amount : Option ℚ
deriving Repr, DecidableEq

/-- The JSON body of `POST /payment-success` (`routes.py:335-345`).  The
outer `Option` of each field is key presence; for `fcm_token` the inner
`Option String` is the value, where `none` stands for JSON `null` (falsy). -/
structure SettleRequest where
  items : Option (List SettleItem)
  total_amount : Option ℚ
  fcm_token : Option (Option String)
deriving Repr, DecidableEq

/-- The error outcomes of `handle_payment_success` (`routes.py:330-419`). -/
inductive SettleError where
  /-- `routes.py:339-340`, missing `items` or `total_amount` key, HTTP 400. -/
  | missingFields
  /-- `routes.py:348-349`, `items` empty, HTTP 400. -/
  | itemsEmpty
  /-- `routes.py:365-366`, an entry with falsy `id` or `amount`, HTTP 400. -/
  | itemMissingIdAmount
  /-- `routes.py:370-372`, unknown `MarketplaceItem` id, HTTP 400. -/
  | invalidItemReference (id : String)
  /-- `routes.py:416-419`, any uncaught exception, rolled back, HTTP 500. -/
  | internalError
deriving Repr, DecidableEq

/-- HTTP status code attached to each error response of
`handle_payment_success` (`routes.py:340`, `349`, `366`, `372`, `419`). -/
def httpStatus : SettleError → Nat
  | .missingFields => 400
  | .itemsEmpty => 400
  | .itemMissingIdAmount => 400
  | .invalidItemReference _ => 400
  | .internalError => 500

/-- Python truthiness of an optional string value: `None` and `""` are falsy. -/
def truthyStr : Option String → Bool
  | none => false
  | some s => s != ""

/-- Model of `User.query.get(uid)` against a list of user rows: the first row
with the given primary key. -/
def findUserL (users : List User) (uid : Nat) : Option User :=
  users.find? (fun u => u.id == uid)

/-- Model of `User.query.get(uid)` against the store. -/
def findUser (s : Store) (uid : Nat) : Option User :=
  findUserL s.users uid

/-- Model of `MarketplaceItem.query.get(iid)` (`routes.py:369`). -/
def findItem (s : Store) (iid : String) : Option MarketplaceItem :=
  s.items.find? (fun m => m.id == iid)

/-- In-place balance increment of a single user row, as performed by
`seller.account_balance += seller_share` (`routes.py:405`). -/
def bump (uid : Nat) (a : ℚ) (u : User) : User :=
  if u.id = uid then { u with account_balance := u.account_balance + a } else u

/-- The user table after crediting `a` to the balance of user `uid`. -/
def creditUsers (users : List User) (uid : Nat) (a : ℚ) : List User :=
  users.map (bump uid a)

/-- Model of `utils.on_item_sold` (`utils.py:70-83`): re-fetch the seller and
send an "Item Sold!" push message if their stored token is truthy.  When the
user row is absent the attribute access `user.fcm_token` (`utils.py:72`)
raises, which is modelled as `.error ()`; the inner `send_fcm_message` call
swallows its own failures (`utils.py:74-83`), so the happy path only yields
the emitted messages. -/
def on_item_sold (users : List User) (user_id : Nat) (item_name : String) :
    Except Unit (List FcmMsg) :=
  match findUserL users user_id with
  | none => .error ()
  | some user =>
    match user.fcm_token with
    | some tok =>
      if tok ≠ "" then
        .ok [{ token := tok, title := "Item Sold!",
               body := "Your item \x27" ++ item_name ++ "\x27 has been sold!",
               notification_type := "item_sold" }]
      else .ok []
    | none => .ok []

/-- The per-item loop of `handle_payment_success` (`routes.py:361-409`),
threading the session view of the user table.  It returns the FCM messages
emitted while the loop ran (they are sent inside the loop, before any
commit) and either the pending `Payment`/`SalesTransaction` rows plus the
final user table, or the error that aborted the request. -/
def settleLoop (s : Store) (fcm_token : Option String) (order_id : Nat) :
    List User → List SettleItem →
      List FcmMsg × Except SettleError (List Payment × List SalesTransaction × List User)
  | users, [] => ([], .ok ([], [], users))
  | users, item :: rest =>
    -- routes.py:362-366: `item.get("id")` and `item.get("amount")`, truthiness check
    match item.itemId, item.amount with
    | some marketplace_item_id, some amount =>
      if marketplace_item_id = "" ∨ amount = 0 then
        ([], .error .itemMissingIdAmount)
      else
        -- routes.py:369-372: resolve the MarketplaceItem; unknown id aborts with 400
        match findItem s marketplace_item_id with
        | none => ([], .error (.invalidItemReference marketplace_item_id))
        | some marketplace_item =>
          -- routes.py:374-376: the revenue split, two independent products
          let your_share := amount * 0.10
          let seller_share := amount * 0.90
          -- routes.py:382-389: the Payment row for this item
          let payment : Payment :=
            { marketplace_item_id := marketplace_item.id, amount := amount,
              status := "success", order_id := order_id }
          -- routes.py:392-400: the SalesTransaction row recording the split
          let sales_transaction : SalesTransaction :=
            { item_id := marketplace_item.id, user_id := marketplace_item.userId,
              order_id := order_id, your_share := your_share,
              seller_share := seller_share }
          -- routes.py:402-409: credit the seller if the row exists, then notify
          match findUserL users marketplace_item.userId with
          | some _ =>
            let users2 := creditUsers users marketplace_item.userId seller_share
            let sent :=
              if truthyStr fcm_token then
                on_item_sold users2 marketplace_item.userId marketplace_item.name
              else .ok []
            match sent with
            | .error _ => ([], .error .internalError)
            | .ok msgs =>
              let r := settleLoop s fcm_token order_id users2 rest
              (msgs ++ r.1,
                match r.2 with
                | .ok (pays, sts, usersF) =>
                  .ok (payment :: pays, sales_transaction :: sts, usersF)
                | .error err => .error err)
          | none =>
            let r := settleLoop s fcm_token order_id users rest
            (r.1,
              match r.2 with
              | .ok (pays, sts, usersF) =>
                .ok (payment :: pays, sales_transaction :: sts, usersF)
              | .error err => .error err)
    | _, _ => ([], .error .itemMissingIdAmount)

/-- Result of one `POST /payment-success` request: the store that persists
after the request (committed on success, rolled back otherwise), the FCM
messages emitted while it ran, and the HTTP-level outcome. -/
structure SettleResult where
  store : Store
  notifs : List FcmMsg
  outcome : Except SettleError Unit
deriving Repr, DecidableEq

/-- Model of `handle_payment_success` (`routes.py:330-419`).  `current_user_id`
is the JWT identity; it is used only as the buyer id of the `Order` row. -/
def settle (s : Store) (current_user_id : Nat) (req : SettleRequest) : SettleResult :=
  -- routes.py:339-340: presence of the `items` and `total_amount` keys
  match req.items, req.total_amount with
  | some items, some total_amount =>
    -- routes.py:345: `data["fcm_token"]` raises `KeyError` when the key is
    -- absent; the generic handler (routes.py:416-419) rolls back, answers 500
    (match req.fcm_token with
     | none => { store := s, notifs := [], outcome := .error .internalError }
     | some fcm_token =>
       -- routes.py:348-349: `items` must be a non-empty list
       if items.isEmpty then
         { store := s, notifs := [], outcome := .error .itemsEmpty }
       else
         -- routes.py:352-358: the Order row, id materialised by flush
         let order : Order :=
           { id := s.nextOrderId, user_id := current_user_id,
             total_amount := total_amount, status := "completed" }
         let r := settleLoop s fcm_token s.nextOrderId s.users items
         match r.2 with
         | .ok (pays, sts, users2) =>
           -- routes.py:412: db.session.commit() persists everything at once
           { store :=
               { users := users2, items := s.items,
                 orders := s.orders ++ [order],
                 payments := s.payments ++ pays,
                 salesTransactions := s.salesTransactions ++ sts,
                 nextOrderId := s.nextOrderId + 1 },
             notifs := r.1, outcome := .ok () }
         | .error err =>
           -- early 400 return or rollback: nothing of the session persists
           { store := s, notifs := r.1, outcome := .error err })
  | _, _ => { store := s, notifs := [], outcome := .error .missingFields }

/-- Errors of `create_payout` (`routes.py:297-327`). -/
inductive PayoutError where
  /-- `routes.py:310-311`, `"Insufficient balance"`, HTTP 400. -/
  | insufficientBalance
  /-- `routes.py:325-327`: the user row was absent so `user.account_balance`
  raised `AttributeError`, HTTP 500. -/
  | internalError
  /-- `routes.py:325-327`: `stripe.Payout.create` raised, HTTP 500. -/
  | externalError
deriving Repr, DecidableEq

/-- The user table after `user.account_balance -= amount` (`routes.py:321`). -/
def debitUser (s : Store) (uid : Nat) (amount : ℚ) : Store :=
  { s with users :=
      s.users.map (fun u =>
        if u.id = uid then { u with account_balance := u.account_balance - amount }
        else u) }

/-- Model of `create_payout` (`routes.py:297-327`).  `stripeOk` is the
outcome of the external `stripe.Payout.create` call (`routes.py:314-318`),
which the code treats as a black box; `false` means it raised.  The code has
no `user is None` guard, so a missing user surfaces as the generic 500. -/
def create_payout (s : Store) (current_user_id : Nat) (amount : ℚ)
    (stripeOk : Bool) : Store × Except PayoutError Unit :=
  match findUser s current_user_id with
  | none => (s, .error .internalError)
  | some user =>
    if user.account_balance < amount then
      (s, .error .insufficientBalance)
    else if stripeOk then
      -- routes.py:321-322: debit the balance, then commit
      (debitUser s current_user_id amount, .ok ())
    else
      -- the external call raised before any local mutation: no debit
      (s, .error .externalError)

/-- Errors of `create_transfer` (`routes.py:65-101`). -/
inductive TransferError where
  /-- `routes.py:74-75`, missing `account_id`, HTTP 400. -/
  | missingAccountId
  /-- `routes.py:80-81`, user row absent, HTTP 404. -/
  | userNotFound
  /-- `routes.py:83-84`, `account_balance <= 0`, HTTP 400. -/
  | insufficientBalance
  /-- `routes.py:99-101`, `stripe.Transfer.create` raised, HTTP 500. -/
  | externalError
deriving Repr, DecidableEq

/-- The user table after `user.account_balance = 0` (`routes.py:95`). -/
def zeroBalance (s : Store) (uid : Nat) : Store :=
  { s with users :=
      s.users.map (fun u =>
        if u.id = uid then { u with account_balance := 0 } else u) }

/-- Model of `create_transfer` (`routes.py:65-101`).  On success it returns
the amount handed to `stripe.Transfer.create`, namely
`int(user.account_balance * 100)` (`routes.py:88`): the whole balance in
minor units, truncated to an integer (truncation and floor agree because the
balance is positive on this path).  `stripeOk` is the outcome of the external
call; `false` means it raised, in which case no local mutation happens. -/
def create_transfer (s : Store) (current_user_id : Nat) (account_id : Option String)
    (stripeOk : Bool) : Store × Except TransferError Int :=
  if truthyStr account_id = false then (s, .error .missingAccountId)
  else
    match findUser s current_user_id with
    | none => (s, .error .userNotFound)
    | some user =>
      if user.account_balance ≤ 0 then (s, .error .insufficientBalance)
      else
        if stripeOk then
          (zeroBalance s current_user_id, .ok ⌊user.account_balance * 100⌋)
        else (s, .error .externalError)

/-- Balance of a user as stored, if the row exists. -/
def balanceOf (s : Store) (uid : Nat) : Option ℚ :=
  (findUser s uid).map (fun u => u.account_balance)

/-! ### A model of the runtime arithmetic of `routes.py:374-376`

The settlement model above uses exact rational arithmetic.  The Python
process, however, evaluates `amount * 0.10` and `amount * 0.90` in IEEE-754
binary64 (Python `float`), and the resulting rounded values are what is
stored in the `your_share` / `seller_share` columns.  The following
definitions model binary64 rounding (round to nearest, ties to even, 53-bit
significand; the monetary values involved are far from the overflow and
sub-normal ranges, so those cases cannot arise).  Binary64 values are dyadic
rationals `m * 2 ^ k`, represented by the pair `(m, k)`; a decimal input such
as `0.3` is first rounded from the fraction `3 / 10` to the nearest binary64,
exactly as the Python float literal parser does. -/

/-- A dyadic rational `m * 2 ^ k`. -/
structure Dyadic where
  m : Int
  k : Int
deriving Repr, DecidableEq

/-- The rational value of a dyadic. -/
def Dyadic.toRat (d : Dyadic) : ℚ :=
  if 0 ≤ d.k then mkRat (d.m * ((2 ^ d.k.toNat : Nat) : Int)) 1
  else mkRat d.m (2 ^ (-d.k).toNat)

/-- Bit length of a natural number, with explicit fuel (the number itself
suffices) so that it computes by structural recursion. -/
def bitLenAux : Nat → Nat → Nat
  | 0, _ => 0
  | fuel + 1, n => if n = 0 then 0 else bitLenAux fuel (n / 2) + 1

/-- Bit length: `bitLen n = e + 1` where `2 ^ e ≤ n < 2 ^ (e + 1)`, and 0
for 0. -/
def bitLen (n : Nat) : Nat := bitLenAux n n

/-- Does `2 ^ e ≤ p / q` hold?  Stated over the integers to keep the whole
computation in `Nat`. -/
def pow2LE (e : Int) (p q : Nat) : Bool :=
  if 0 ≤ e then decide (q * 2 ^ e.toNat ≤ p) else decide (q ≤ p * 2 ^ (-e).toNat)

/-- Floor of the base-2 logarithm of the positive fraction `p / q`: the guess
from the bit lengths is off by at most one, and two comparisons correct it. -/
def floorLog2F (p q : Nat) : Int :=
  let e : Int := (bitLen p : Int) - (bitLen q : Int)
  if pow2LE (e + 1) p q then e + 1
  else if !pow2LE e p q then e - 1
  else e

/-- Rounded division `A / B` to the nearest integer, ties to even. -/
def rneDiv (A B : Nat) : Nat :=
  let n := A / B
  let r := A % B
  if 2 * r < B then n
  else if B < 2 * r then n + 1
  else if n % 2 = 0 then n else n + 1

/-- The binary64 value nearest to the positive fraction `p / q`: scale into
`[2 ^ 52, 2 ^ 53)`, round to the nearest 53-bit significand with ties to
even, and keep the scale in the exponent. -/
def b64OfPos (p q : Nat) : Dyadic :=
  let e := floorLog2F p q
  let shift := 52 - e
  let A := if 0 ≤ shift then p * 2 ^ shift.toNat else p
  let B := if 0 ≤ shift then q else q * 2 ^ (-shift).toNat
  { m := (rneDiv A B : Nat), k := e - 52 }

/-- Binary64 rounding of a dyadic (the result of an exact product or sum of
binary64 values). -/
def roundDyadic (d : Dyadic) : Dyadic :=
  if d.m = 0 then { m := 0, k := 0 }
  else if d.m < 0 then
    let r := b64OfPos d.m.natAbs 1
    { m := -r.m, k := r.k + d.k }
  else
    let r := b64OfPos d.m.natAbs 1
    { m := r.m, k := r.k + d.k }

/-- Binary64 multiplication: the exact product, rounded. -/
def fmul64 (a b : Dyadic) : Dyadic := roundDyadic { m := a.m * b.m, k := a.k + b.k }

/-- Exact sum of two dyadics (align the exponents). -/
def addD (a b : Dyadic) : Dyadic :=
  if a.k ≤ b.k then { m := a.m + b.m * ((2 ^ (b.k - a.k).toNat : Nat) : Int), k := a.k }
  else { m := a.m * ((2 ^ (a.k - b.k).toNat : Nat) : Int) + b.m, k := b.k }

/-- Binary64 addition: the exact sum, rounded. -/
def fadd64 (a b : Dyadic) : Dyadic := roundDyadic (addD a b)

/-- The binary64 value of the literal `0.10` of `routes.py:375`. -/
def lit010 : Dyadic := b64OfPos 1 10

/-- The binary64 value of the literal `0.90` of `routes.py:376`. -/
def lit090 : Dyadic := b64OfPos 9 10

/-- The value the running code stores in `your_share` (`routes.py:375`) for a
binary64 amount: the binary64 product of the amount and the literal `0.10`. -/
def your_share_b64 (amount : Dyadic) : Dyadic := fmul64 amount lit010

/-- The value the running code stores in `seller_share` (`routes.py:376`) for
a binary64 amount: the binary64 product of the amount and the literal
`0.90`. -/
def seller_share_b64 (amount : Dyadic) : Dyadic := fmul64 amount lit090

/-! ### Characterization helpers

The following definitions are not part of the embedding of the code: they
express, row by row, what the settlement loop produces, and the theorems
below prove that the loop agrees with them.  The `Option.getD` defaults are
never reached under the `EntryOk` hypotheses the theorems carry. -/

/-- The `id` field of a request entry (default never used under `EntryOk`). -/
def entryId (e : SettleItem) : String := e.itemId.getD ""

/-- The `amount` field of a request entry (default never used under
`EntryOk`). -/
def entryAmt (e : SettleItem) : ℚ := e.amount.getD 0

/-- A request entry that passes the shape check of `routes.py:362-366`: both
keys present with truthy values. -/
def EntryOk (e : SettleItem) : Prop :=
  e.itemId = some (entryId e) ∧ entryId e ≠ "" ∧
    e.amount = some (entryAmt e) ∧ entryAmt e ≠ 0

instance (e : SettleItem) : Decidable (EntryOk e) := by
  unfold EntryOk; infer_instance

/-- The item id of the entry resolves in the store (`routes.py:369-372`). -/
def Resolves (s : Store) (e : SettleItem) : Prop :=
  (findItem s (entryId e)).isSome

instance (s : Store) (e : SettleItem) : Decidable (Resolves s e) := by
  unfold Resolves; infer_instance

/-- The `Payment` row the loop writes for one entry (`routes.py:382-389`). -/
def payRow (order_id : Nat) (e : SettleItem) : Payment :=
  { marketplace_item_id := entryId e, amount := entryAmt e,
    status := "success", order_id := order_id }

/-- The `SalesTransaction` row the loop writes for one entry
(`routes.py:392-400`). -/
def stRow (s : Store) (order_id : Nat) (e : SettleItem) : SalesTransaction :=
  match findItem s (entryId e) with
  | some mi =>
    { item_id := mi.id, user_id := mi.userId, order_id := order_id,
      your_share := entryAmt e * 0.10, seller_share := entryAmt e * 0.90 }
  | none =>
    { item_id := entryId e, user_id := 0, order_id := order_id,
      your_share := 0, seller_share := 0 }

/-- The effect of one loop iteration on the user table
(`routes.py:402-405`): credit the seller 90% of the entry amount if the
seller row exists, otherwise leave every balance alone. -/
def creditStep (s : Store) (users : List User) (e : SettleItem) : List User :=
  match findItem s (entryId e) with
  | some mi =>
    match findUserL users mi.userId with
    | some _ => creditUsers users mi.userId (entryAmt e * 0.90)
    | none => users
  | none => users

/-- The user table after the whole loop. -/
def applyCredits (s : Store) (users : List User) (entries : List SettleItem) : List User :=
  entries.foldl (creditStep s) users

/-- The FCM messages one loop iteration emits (`routes.py:408-409` together
with `utils.py:70-83`): one "Item Sold!" message when the seller row of the item
exists, the request `fcm_token` is truthy and the stored token of the seller is
truthy; none otherwise.  Credits never change ids or stored tokens, so the
original store decides this. -/
def notifFor (s : Store) (fcm_token : Option String) (e : SettleItem) : List FcmMsg :=
  match findItem s (entryId e) with
  | some mi =>
    match findUser s mi.userId with
    | some u =>
      if truthyStr fcm_token then
        match u.fcm_token with
        | some tok =>
          if tok ≠ "" then
            [{ token := tok, title := "Item Sold!",
               body := "Your item \x27" ++ mi.name ++ "\x27 has been sold!",
               notification_type := "item_sold" }]
          else []
        | none => []
      else []
    | none => []
  | none => []

/-- All FCM messages the loop emits over a list of entries, in order. -/
def notifsOf (s : Store) (fcm_token : Option String) : List SettleItem → List FcmMsg
  | [] => []
  | e :: rest => notifFor s fcm_token e ++ notifsOf s fcm_token rest

/-! ### Concrete fixtures used by the witnesses -/

/-- A seller with an FCM token. -/
def sellerOne : User := { id := 1, account_balance := 0, fcm_token := some "tok-1" }

/-- An item owned by `sellerOne`. -/
def itemA : MarketplaceItem := { id := "item-a", name := "Alpha", price := 10, userId := 1 }

/-- A second item owned by the same seller. -/
def itemB : MarketplaceItem := { id := "item-b", name := "Beta", price := 5, userId := 1 }

/-- An item whose owning seller id (99) has no `User` row. -/
def itemOrphan : MarketplaceItem := { id := "item-x", name := "Orphan", price := 4, userId := 99 }

/-- A store with one seller and three items. -/
def storeMain : Store :=
  { users := [sellerOne], items := [itemA, itemB, itemOrphan],
    orders := [], payments := [], salesTransactions := [], nextOrderId := 0 }

/-- Two valid items of the same seller, truthy request token. -/
def reqDup : SettleRequest :=
  { items := some [{ itemId := some "item-a", amount := some 10 },
                   { itemId := some "item-b", amount := some 5 }],
    total_amount := some 15, fcm_token := some (some "buyer-tok") }

/-- A valid first item followed by an unknown item id. -/
def reqBadItem : SettleRequest :=
  { items := some [{ itemId := some "item-a", amount := some 10 },
                   { itemId := some "item-zzz", amount := some 5 }],
    total_amount := some 15, fcm_token := some (some "buyer-tok") }

/-- A single item whose seller row does not exist. -/
def reqOrphan : SettleRequest :=
  { items := some [{ itemId := some "item-x", amount := some 4 }],
    total_amount := some 4, fcm_token := some none }

/-- Valid `items` and `total_amount`, but no `fcm_token` key at all. -/
def reqNoFcm : SettleRequest :=
  { items := some [{ itemId := some "item-a", amount := some 10 }],
    total_amount := some 10, fcm_token := none }

/-- The two valid items of `reqDup`, but with a declared total (100) that
differs from the sum of the item amounts (15). -/
def reqTotalOff : SettleRequest :=
  { items := some [{ itemId := some "item-a", amount := some 10 },
                   { itemId := some "item-b", amount := some 5 }],
    total_amount := some 100, fcm_token := some (some "buyer-tok") }

/-- A store for the payout/transfer witnesses: one user with balance 100. -/
def storePay : Store :=
  { users := [{ id := 1, account_balance := 100, fcm_token := none }],
    items := [], orders := [], payments := [], salesTransactions := [], nextOrderId := 0 }

/-- Predicate on table transformations that settlement credits satisfy: they
never change the primary key of a row or stored FCM token. -/
def KeepsIdTok (f : User → User) : Prop :=
  ∀ u, (f u).id = u.id ∧ (f u).fcm_token = u.fcm_token

/-! ### Model validation: the binary64 model against observed CPython values

Each right-hand side below is the exact value (`float.as_integer_ratio`) of
the corresponding Python expression. -/

example : lit010.toRat = mkRat 3602879701896397 36028797018963968 := by decide
example : lit090.toRat = mkRat 8106479329266893 9007199254740992 := by decide
example : (b64OfPos 3 10).toRat = mkRat 5404319552844595 18014398509481984 := by decide
example : (b64OfPos 1 4).toRat = mkRat 1 4 := by decide
example : (fmul64 (b64OfPos 3 1) lit090).toRat = mkRat 3039929748475085 1125899906842624 := by decide
example : (your_share_b64 (b64OfPos 3 10)).toRat = mkRat 1080863910568919 36028797018963968 := by decide
example : (seller_share_b64 (b64OfPos 3 10)).toRat = mkRat 607985949695017 2251799813685248 := by decide
example :
    (fadd64 (your_share_b64 (b64OfPos 3 10)) (seller_share_b64 (b64OfPos 3 10))).toRat
      = mkRat 1351079888211149 4503599627370496 := by decide

/-! ### Basic lemmas about lookups and credits -/

theorem bump_id (uid : Nat) (a : ℚ) (u : User) : (bump uid a u).id = u.id := by
  unfold bump; split <;> rfl

theorem bump_fcm (uid : Nat) (a : ℚ) (u : User) :
    (bump uid a u).fcm_token = u.fcm_token := by
  unfold bump; split <;> rfl

theorem findUserL_map (l : List User) (f : User → User)
    (hf : ∀ u, (f u).id = u.id) (uid : Nat) :
    findUserL (l.map f) uid = (findUserL l uid).map f := by
  unfold findUserL
  rw [List.find?_map]
  have hp : ((fun u => u.id == uid) ∘ f) = (fun (u : User) => u.id == uid) :=
    funext fun u => by simp [Function.comp, hf u]
  rw [hp]

theorem findUserL_id {l : List User} {uid : Nat} {u : User}
    (h : findUserL l uid = some u) : u.id = uid := by
  have := List.find?_some h
  simpa using this

theorem findItem_id {s : Store} {i : String} {mi : MarketplaceItem}
    (h : findItem s i = some mi) : mi.id = i := by
  have := List.find?_some h
  simpa using this

theorem keepsIdTok_id : KeepsIdTok id := fun _ => ⟨rfl, rfl⟩

theorem keepsIdTok_bump (uid : Nat) (a : ℚ) (f : User → User) (hf : KeepsIdTok f) :
    KeepsIdTok (fun u => bump uid a (f u)) := by
  intro u
  constructor
  · rw [bump_id, (hf u).1]
  · rw [bump_fcm, (hf u).2]

/-- One successful iteration of the settlement loop, for a user table that is
an id- and token-preserving transformation of the stored table: it emits
exactly the messages `notifFor` describes, pushes the expected
`Payment`/`SalesTransaction` rows, and transforms the user table by
`creditStep`. -/
theorem settleLoop_cons (s : Store) (ft : Option String) (oid : Nat)
    (f : User → User) (hf : KeepsIdTok f)
    (e : SettleItem) (rest : List SettleItem)
    (hoke : EntryOk e) (mi : MarketplaceItem) (hmi : findItem s (entryId e) = some mi) :
    settleLoop s ft oid (s.users.map f) (e :: rest) =
      (notifFor s ft e ++ (settleLoop s ft oid (creditStep s (s.users.map f) e) rest).1,
        match (settleLoop s ft oid (creditStep s (s.users.map f) e) rest).2 with
        | .ok (pays, sts, us) => .ok (payRow oid e :: pays, stRow s oid e :: sts, us)
        | .error err => .error err) := by
  obtain ⟨hid, hidne, hamt, hamtne⟩ := hoke
  have hcond : ¬(entryId e = "" ∨ entryAmt e = 0) := by
    rintro (h | h)
    · exact hidne h
    · exact hamtne h
  have hmiid := findItem_id hmi
  have hfid : ∀ u, (f u).id = u.id := fun u => (hf u).1
  have hpay : Payment.mk mi.id (entryAmt e) ("success") oid = payRow oid e := by
    rw [payRow, hmiid]
  have hst : SalesTransaction.mk mi.id mi.userId oid (entryAmt e * 0.10)
      (entryAmt e * 0.90) = stRow s oid e := by
    rw [stRow, hmi]
  cases hseller : findUserL s.users mi.userId with
  | none =>
    have hm : findUserL (s.users.map f) mi.userId = none := by
      rw [findUserL_map _ _ hfid, hseller]; rfl
    have hnf : notifFor s ft e = [] := by
      rw [notifFor, hmi]
      show (match findUser s mi.userId with
        | some u => _ | none => ([] : List FcmMsg)) = []
      rw [findUser, hseller]
    have hcs : creditStep s (s.users.map f) e = s.users.map f := by
      rw [creditStep, hmi]
      show (match findUserL (s.users.map f) mi.userId with
        | some _ => _ | none => s.users.map f) = s.users.map f
      rw [hm]
    simp only [settleLoop, hid, hamt, if_neg hcond, hmi, hm, hcs, hnf, hpay, hst,
      List.nil_append]
  | some u =>
    have hm : findUserL (s.users.map f) mi.userId = some (f u) := by
      rw [findUserL_map _ _ hfid, hseller]; rfl
    have hmap2 : creditUsers (s.users.map f) mi.userId (entryAmt e * 0.90)
        = s.users.map (fun x => bump mi.userId (entryAmt e * 0.90) (f x)) := by
      rw [creditUsers, List.map_map]; rfl
    have hm2 : findUserL (creditUsers (s.users.map f) mi.userId (entryAmt e * 0.90)) mi.userId
        = some (bump mi.userId (entryAmt e * 0.90) (f u)) := by
      rw [hmap2,
        findUserL_map _ _ (fun x => ((keepsIdTok_bump mi.userId (entryAmt e * 0.90) f hf) x).1),
        hseller]
      rfl
    have htok : (bump mi.userId (entryAmt e * 0.90) (f u)).fcm_token = u.fcm_token := by
      rw [bump_fcm, (hf u).2]
    have hsent : (if truthyStr ft then
          on_item_sold (creditUsers (s.users.map f) mi.userId (entryAmt e * 0.90))
            mi.userId mi.name
        else .ok []) = Except.ok (notifFor s ft e) := by
      rw [notifFor, hmi]
      show _ = Except.ok (match findUser s mi.userId with
        | some u => _ | none => ([] : List FcmMsg))
      rw [findUser, hseller]
      cases htr : truthyStr ft with
      | false => rfl
      | true =>
        simp only [if_true, on_item_sold, hm2]
        rw [htok]
        cases u.fcm_token with
        | none => rfl
        | some tok =>
          by_cases h : tok ≠ "" <;> simp [h]
    have hcs : creditStep s (s.users.map f) e
        = creditUsers (s.users.map f) mi.userId (entryAmt e * 0.90) := by
      rw [creditStep, hmi]
      show (match findUserL (s.users.map f) mi.userId with
        | some _ => creditUsers (s.users.map f) mi.userId (entryAmt e * 0.90)
        | none => s.users.map f) = _
      rw [hm]
    simp only [settleLoop, hid, hamt, if_neg hcond, hmi, hm, hsent, hcs, hpay, hst]

/-- The credit step sends mapped user tables to mapped user tables. -/
theorem creditStep_map (s : Store) (e : SettleItem) (f : User → User)
    (hf : KeepsIdTok f) :
    ∃ f2, KeepsIdTok f2 ∧ creditStep s (s.users.map f) e = s.users.map f2 := by
  cases hmi : findItem s (entryId e) with
  | none =>
    refine ⟨f, hf, ?_⟩
    simp only [creditStep, hmi]
  | some mi =>
    cases hm : findUserL (s.users.map f) mi.userId with
    | none =>
      refine ⟨f, hf, ?_⟩
      simp only [creditStep, hmi, hm]
    | some v =>
      refine ⟨fun x => bump mi.userId (entryAmt e * 0.90) (f x),
        keepsIdTok_bump _ _ f hf, ?_⟩
      simp only [creditStep, hmi, hm, creditUsers, List.map_map]
      rfl

/-- The settlement loop over a prefix of entries that all pass the shape
check and resolve: it runs to the end of the prefix, emitting the messages,
rows and credits described by `notifsOf`, `payRow`, `stRow` and
`applyCredits`, and continues on the rest. -/
theorem settleLoop_append (s : Store) (ft : Option String) (oid : Nat)
    (pre rest : List SettleItem) (f : User → User) (hf : KeepsIdTok f)
    (hok : ∀ e ∈ pre, EntryOk e ∧ Resolves s e) :
    settleLoop s ft oid (s.users.map f) (pre ++ rest) =
      (notifsOf s ft pre
          ++ (settleLoop s ft oid (applyCredits s (s.users.map f) pre) rest).1,
        match (settleLoop s ft oid (applyCredits s (s.users.map f) pre) rest).2 with
        | .ok (pays, sts, us) =>
          .ok (pre.map (payRow oid) ++ pays, pre.map (stRow s oid) ++ sts, us)
        | .error err => .error err) := by
  induction pre generalizing f with
  | nil =>
    simp only [List.nil_append, applyCredits, List.foldl_nil, notifsOf, List.map_nil]
    rcases hr : settleLoop s ft oid (s.users.map f) rest with ⟨ns, res⟩
    cases res with
    | ok v =>
      obtain ⟨p, t, u⟩ := v
      simp
    | error err => simp
  | cons e pre ih =>
    obtain ⟨hoke, hrese⟩ := hok e (by simp)
    obtain ⟨mi, hmi⟩ := Option.isSome_iff_exists.mp hrese
    have hstep := settleLoop_cons s ft oid f hf e (pre ++ rest) hoke mi hmi
    rw [List.cons_append, hstep]
    obtain ⟨f2, hf2, hcs⟩ := creditStep_map s e f hf
    have hok2 : ∀ x ∈ pre, EntryOk x ∧ Resolves s x := fun x hx => hok x (by simp [hx])
    rw [hcs, ih f2 hf2 hok2]
    have hac : applyCredits s (s.users.map f) (e :: pre)
        = applyCredits s (s.users.map f2) pre := by
      rw [applyCredits, List.foldl_cons, hcs]; rfl
    rw [notifsOf, hac]
    rcases hr : (settleLoop s ft oid (applyCredits s (s.users.map f2) pre) rest).2 with
      res | v
    · simp
    · obtain ⟨p, t, u⟩ := v
      simp

/-- The settlement loop over a list of entries that all pass the shape check
and resolve succeeds, with the expected messages, rows and credits. -/
theorem settleLoop_ok_all (s : Store) (ft : Option String) (oid : Nat)
    (entries : List SettleItem)
    (hok : ∀ e ∈ entries, EntryOk e ∧ Resolves s e) :
    settleLoop s ft oid s.users entries =
      (notifsOf s ft entries,
        .ok (entries.map (payRow oid), entries.map (stRow s oid),
          applyCredits s s.users entries)) := by
  have h := settleLoop_append s ft oid entries [] id keepsIdTok_id hok
  rw [List.append_nil, List.map_id] at h
  rw [h, settleLoop]
  simp

/-- The settlement loop aborts with `invalidItemReference` at the head entry
when that entry passes the shape check but does not resolve. -/
theorem settleLoop_bad_head (s : Store) (ft : Option String) (oid : Nat)
    (users : List User) (bad : SettleItem) (rest : List SettleItem)
    (hokbad : EntryOk bad) (hbad : findItem s (entryId bad) = none) :
    settleLoop s ft oid users (bad :: rest)
      = ([], .error (.invalidItemReference (entryId bad))) := by
  obtain ⟨hid, hidne, hamt, hamtne⟩ := hokbad
  have hcond : ¬(entryId bad = "" ∨ entryAmt bad = 0) := by
    rintro (h | h)
    · exact hidne h
    · exact hamtne h
  simp only [settleLoop, hid, hamt, if_neg hcond, hbad]

/-- The settlement loop over a resolving prefix followed by a non-resolving
entry: the prefix runs (emitting its messages), then the loop aborts with
`invalidItemReference` for the bad entry. -/
theorem settleLoop_stops_at_bad (s : Store) (ft : Option String) (oid : Nat)
    (pre : List SettleItem) (bad : SettleItem) (rest : List SettleItem)
    (hok : ∀ e ∈ pre, EntryOk e ∧ Resolves s e)
    (hokbad : EntryOk bad) (hbad : findItem s (entryId bad) = none) :
    settleLoop s ft oid s.users (pre ++ bad :: rest)
      = (notifsOf s ft pre, .error (.invalidItemReference (entryId bad))) := by
  have h := settleLoop_append s ft oid pre (bad :: rest) id keepsIdTok_id hok
  rw [List.map_id] at h
  rw [h, settleLoop_bad_head s ft oid _ bad rest hokbad hbad]
  simp

/-- Full characterization of a successful settlement: request shape valid,
every entry well-formed and resolving.  One `Order` row with the
caller-supplied total, one `Payment` and one `SalesTransaction` row per
entry, the seller credits of `applyCredits`, and the per-item messages of
`notifsOf`, all committed at once. -/
theorem settle_ok (s : Store) (buyer : Nat) (req : SettleRequest) (t : ℚ)
    (ft : Option String) (entries : List SettleItem)
    (hi : req.items = some entries) (ht : req.total_amount = some t)
    (hft : req.fcm_token = some ft) (hne : entries ≠ [])
    (hok : ∀ e ∈ entries, EntryOk e ∧ Resolves s e) :
    settle s buyer req =
      { store :=
          { users := applyCredits s s.users entries, items := s.items,
            orders := s.orders ++ [Order.mk s.nextOrderId buyer t ("completed")],
            payments := s.payments ++ entries.map (payRow s.nextOrderId),
            salesTransactions :=
              s.salesTransactions ++ entries.map (stRow s s.nextOrderId),
            nextOrderId := s.nextOrderId + 1 },
        notifs := notifsOf s ft entries, outcome := .ok () } := by
  obtain ⟨ri, rt, rf⟩ := req
  simp only at hi ht hft
  subst hi; subst ht; subst hft
  have hemp : entries.isEmpty = false := by
    cases entries with
    | nil => exact absurd rfl hne
    | cons a as => rfl
  simp only [settle, hemp, Bool.false_eq_true, if_false,
    settleLoop_ok_all s ft s.nextOrderId entries hok]

/-- Full characterization of a settlement aborted by an unknown item id after
a resolving prefix: the error names the bad id, the store is unchanged, and
the messages of the prefix have already been emitted. -/
theorem settle_err_bad_item (s : Store) (buyer : Nat) (req : SettleRequest) (t : ℚ)
    (ft : Option String) (pre : List SettleItem) (bad : SettleItem)
    (rest : List SettleItem)
    (hi : req.items = some (pre ++ bad :: rest)) (ht : req.total_amount = some t)
    (hft : req.fcm_token = some ft)
    (hok : ∀ e ∈ pre, EntryOk e ∧ Resolves s e)
    (hokbad : EntryOk bad) (hbad : findItem s (entryId bad) = none) :
    settle s buyer req =
      { store := s, notifs := notifsOf s ft pre,
        outcome := .error (.invalidItemReference (entryId bad)) } := by
  obtain ⟨ri, rt, rf⟩ := req
  simp only at hi ht hft
  subst hi; subst ht; subst hft
  have hemp : (pre ++ bad :: rest).isEmpty = false := by
    cases pre <;> rfl
  simp only [settle, hemp, Bool.false_eq_true, if_false,
    settleLoop_stops_at_bad s ft s.nextOrderId pre bad rest hok hokbad hbad]

/-! ### The claims -/

/-- C1: a settlement batch containing an item id that does not resolve to an
existing `MarketplaceItem` makes `handle_payment_success` return the
`InvalidItemReference` error (HTTP 400, naming the bad id) and leaves the
store unchanged: no new `Order`, `Payment` or `SalesTransaction` row persists
and no balance changes, including for the valid items processed earlier in
the same batch (`pre`). -/
theorem settle_unknown_item_rolls_back
    (s : Store) (buyer : Nat) (req : SettleRequest) (t : ℚ) (ft : Option String)
    (pre rest : List SettleItem) (bad : SettleItem)
    (hi : req.items = some (pre ++ bad :: rest)) (ht : req.total_amount = some t)
    (hft : req.fcm_token = some ft)
    (hok : ∀ e ∈ pre, EntryOk e ∧ Resolves s e)
    (hokbad : EntryOk bad) (hbad : findItem s (entryId bad) = none) :
    (settle s buyer req).outcome = .error (.invalidItemReference (entryId bad)) ∧
    (settle s buyer req).store = s ∧
    httpStatus (.invalidItemReference (entryId bad)) = 400 := by
  rw [settle_err_bad_item s buyer req t ft pre bad rest hi ht hft hok hokbad hbad]
  exact ⟨rfl, rfl, rfl⟩

/-- C1, witness: a concrete batch with a valid first item and an unknown
second id fails with `InvalidItemReference "item-zzz"` and leaves the
concrete store untouched. -/
theorem settle_unknown_item_rolls_back_witness :
    (settle storeMain 7 reqBadItem).outcome
        = .error (.invalidItemReference ("item-zzz")) ∧
    (settle storeMain 7 reqBadItem).store = storeMain := by
  have h := settle_unknown_item_rolls_back storeMain 7 reqBadItem 15
    (some "buyer-tok") [{ itemId := some "item-a", amount := some 10 }] []
    { itemId := some "item-zzz", amount := some 5 }
    rfl rfl rfl (by decide) (by decide) (by decide)
  exact ⟨h.1, h.2.1⟩

/-- C10: a request whose body has `items` and `total_amount` but no
`fcm_token` key fails with the generic 500 internal-server error, not a 400
validation error, and nothing persists: `data["fcm_token"]`
(`routes.py:345`) raises `KeyError` before any row is created. -/
theorem missing_fcm_token_internal_error
    (s : Store) (buyer : Nat) (req : SettleRequest) (entries : List SettleItem)
    (t : ℚ) (hi : req.items = some entries) (ht : req.total_amount = some t)
    (hft : req.fcm_token = none) :
    settle s buyer req
      = { store := s, notifs := [], outcome := .error .internalError } ∧
    httpStatus .internalError = 500 := by
  obtain ⟨ri, rt, rf⟩ := req
  simp only at hi ht hft
  subst hi; subst ht; subst hft
  exact ⟨rfl, rfl⟩

/-- C10, witness: the concrete request with valid `items` and `total_amount`
but no `fcm_token` key. -/
theorem missing_fcm_token_internal_error_witness :
    settle storeMain 7 reqNoFcm
      = { store := storeMain, notifs := [], outcome := .error .internalError } :=
  (missing_fcm_token_internal_error storeMain 7 reqNoFcm
    [{ itemId := some "item-a", amount := some 10 }] 10 rfl rfl rfl).1

/-- C8: a successful settlement creates exactly one `Order` row, whose
`total_amount` is the caller-supplied value verbatim and whose status is
`completed`.  No hypothesis relates `t` to the sum of the item amounts: the
settlement succeeds even when they differ (see the witness). -/
theorem order_row_total_verbatim
    (s : Store) (buyer : Nat) (req : SettleRequest) (t : ℚ) (ft : Option String)
    (entries : List SettleItem)
    (hi : req.items = some entries) (ht : req.total_amount = some t)
    (hft : req.fcm_token = some ft) (hne : entries ≠ [])
    (hok : ∀ e ∈ entries, EntryOk e ∧ Resolves s e) :
    (settle s buyer req).outcome = .ok () ∧
    (settle s buyer req).store.orders
      = s.orders ++ [Order.mk s.nextOrderId buyer t ("completed")] := by
  rw [settle_ok s buyer req t ft entries hi ht hft hne hok]
  exact ⟨rfl, rfl⟩

/-- C8, witness: a batch whose declared total (100) differs from the sum of
its item amounts (10 + 5) still settles, and the `Order` row records 100. -/
theorem order_row_total_verbatim_witness :
    (100 : ℚ) ≠ 10 + 5 ∧
    (settle storeMain 7 reqTotalOff).outcome = .ok () ∧
    (settle storeMain 7 reqTotalOff).store.orders
      = storeMain.orders ++ [Order.mk storeMain.nextOrderId 7 100 ("completed")] := by
  have h := order_row_total_verbatim storeMain 7 reqTotalOff 100 (some "buyer-tok")
    [{ itemId := some "item-a", amount := some 10 },
     { itemId := some "item-b", amount := some 5 }]
    rfl rfl rfl (by decide) (by decide)
  exact ⟨by norm_num, h.1, h.2⟩

/-- C3: the `SalesTransaction` rows a successful settlement writes record,
for each item, `your_share = amount * 0.10` and
`seller_share = amount * 0.90`, each an independent product of the charged
amount of that entry; the rates are fixed constants of the code and no field
of the item or of any user enters the two products. -/
theorem revenue_split_formula
    (s : Store) (buyer : Nat) (req : SettleRequest) (t : ℚ) (ft : Option String)
    (entries : List SettleItem)
    (hi : req.items = some entries) (ht : req.total_amount = some t)
    (hft : req.fcm_token = some ft) (hne : entries ≠ [])
    (hok : ∀ e ∈ entries, EntryOk e ∧ Resolves s e) :
    (settle s buyer req).outcome = .ok () ∧
    (settle s buyer req).store.salesTransactions
      = s.salesTransactions ++ entries.map (stRow s s.nextOrderId) ∧
    (∀ e mi, findItem s (entryId e) = some mi →
      stRow s s.nextOrderId e
        = SalesTransaction.mk mi.id mi.userId s.nextOrderId
            (entryAmt e * 0.10) (entryAmt e * 0.90)) := by
  rw [settle_ok s buyer req t ft entries hi ht hft hne hok]
  refine ⟨rfl, rfl, ?_⟩
  intro e mi hmi
  rw [stRow, hmi]

/-- C3, witness: for the concrete item `item-a` charged 10, the written row
is split as `10 * 0.10` and `10 * 0.90` of the entry amount. -/
theorem revenue_split_formula_witness :
    (settle storeMain 7 reqDup).outcome = .ok () ∧
    stRow storeMain storeMain.nextOrderId { itemId := some "item-a", amount := some 10 }
      = SalesTransaction.mk ("item-a") 1 storeMain.nextOrderId
          ((10 : ℚ) * 0.10) ((10 : ℚ) * 0.90) := by
  have h := revenue_split_formula storeMain 7 reqDup 15 (some "buyer-tok")
    [{ itemId := some "item-a", amount := some 10 },
     { itemId := some "item-b", amount := some 5 }]
    rfl rfl rfl (by decide) (by decide)
  exact ⟨h.1, h.2.2 { itemId := some "item-a", amount := some 10 } itemA (by decide)⟩

/-- C6: a settlement item whose `MarketplaceItem` exists but whose owning
seller has no `User` row does not fail the settlement: the batch still
commits, the `Payment` and `SalesTransaction` rows for that item are
written, the credit step for that item leaves every user table unchanged
(the credit is silently skipped), and no notification is emitted for it. -/
theorem missing_seller_settles
    (s : Store) (buyer : Nat) (req : SettleRequest) (t : ℚ) (ft : Option String)
    (entries : List SettleItem)
    (hi : req.items = some entries) (ht : req.total_amount = some t)
    (hft : req.fcm_token = some ft) (hne : entries ≠ [])
    (hok : ∀ e ∈ entries, EntryOk e ∧ Resolves s e)
    (eK : SettleItem) (mi : MarketplaceItem)
    (hkmem : eK ∈ entries) (hmi : findItem s (entryId eK) = some mi)
    (hseller : findUser s mi.userId = none) :
    (settle s buyer req).outcome = .ok () ∧
    payRow s.nextOrderId eK ∈ (settle s buyer req).store.payments ∧
    stRow s s.nextOrderId eK ∈ (settle s buyer req).store.salesTransactions ∧
    (∀ us, findUserL us mi.userId = none → creditStep s us eK = us) ∧
    notifFor s ft eK = [] := by
  rw [settle_ok s buyer req t ft entries hi ht hft hne hok]
  refine ⟨rfl, ?_, ?_, ?_, ?_⟩
  · exact List.mem_append_right _ (List.mem_map_of_mem _ hkmem)
  · exact List.mem_append_right _ (List.mem_map_of_mem _ hkmem)
  · intro us hus
    simp only [creditStep, hmi, hus]
  · simp only [notifFor, hmi, hseller]

/-- C6, witness: the concrete item `item-x` is owned by seller id 99, which
has no user row; the single-item settlement still succeeds and skips the
credit. -/
theorem missing_seller_settles_witness :
    (settle storeMain 7 reqOrphan).outcome = .ok () ∧
    payRow storeMain.nextOrderId { itemId := some "item-x", amount := some 4 }
      ∈ (settle storeMain 7 reqOrphan).store.payments ∧
    creditStep storeMain storeMain.users { itemId := some "item-x", amount := some 4 }
      = storeMain.users := by
  have h := missing_seller_settles storeMain 7 reqOrphan 4 none
    [{ itemId := some "item-x", amount := some 4 }]
    rfl rfl rfl (by decide) (by decide)
    { itemId := some "item-x", amount := some 4 } itemOrphan
    (by decide) (by decide) (by decide)
  exact ⟨h.1, h.2.1, h.2.2.2.1 storeMain.users (by decide)⟩

/-- C7, counterexample: a successful settlement of two items owned by the
same seller.  The store has exactly one user, every `SalesTransaction` row
credits seller 1 — so exactly one distinct seller received a credit — yet
two "item sold" messages are emitted, not one.  (They are also emitted
inside the loop, before the commit; see the amended theorem.) -/
theorem settle_notification_per_item_counterexample :
    (settle storeMain 7 reqDup).outcome = .ok () ∧
    storeMain.users.length = 1 ∧
    (∀ t2 ∈ (settle storeMain 7 reqDup).store.salesTransactions, t2.user_id = 1) ∧
    (settle storeMain 7 reqDup).notifs.length = 2 := by
  decide

/-- C7, amended: notifications are emitted per processed item, inside the
loop and before the commit.  On a successful settlement the emitted messages
are exactly `notifsOf` over all entries: one message for each item whose
seller row exists, whose stored token is truthy, and with the request token
truthy — a seller with several items in the batch is notified once per item.
On a settlement aborted by an unknown item id, the messages of the already
processed prefix have still been emitted even though everything was rolled
back.  (Delivery itself is fire-and-forget: `utils.py:39-43` and
`utils.py:74-83` swallow send failures, so a notification failure cannot
change the outcome or the committed state.) -/
theorem settle_notifications_characterized
    (s : Store) (buyer : Nat) (req : SettleRequest) (t : ℚ) (ft : Option String)
    (entries : List SettleItem)
    (hi : req.items = some entries) (ht : req.total_amount = some t)
    (hft : req.fcm_token = some ft) :
    ((entries ≠ [] ∧ ∀ e ∈ entries, EntryOk e ∧ Resolves s e) →
      (settle s buyer req).outcome = .ok () ∧
      (settle s buyer req).notifs = notifsOf s ft entries) ∧
    (∀ pre bad rest, entries = pre ++ bad :: rest →
      (∀ e ∈ pre, EntryOk e ∧ Resolves s e) → EntryOk bad →
      findItem s (entryId bad) = none →
      (settle s buyer req).outcome = .error (.invalidItemReference (entryId bad)) ∧
      (settle s buyer req).notifs = notifsOf s ft pre) := by
  constructor
  · rintro ⟨hne, hok⟩
    rw [settle_ok s buyer req t ft entries hi ht hft hne hok]
    exact ⟨rfl, rfl⟩
  · intro pre bad rest he hok hokbad hbad
    rw [settle_err_bad_item s buyer req t ft pre bad rest (he ▸ hi) ht hft hok
      hokbad hbad]
    exact ⟨rfl, rfl⟩

/-- C7, witness for the amended theorem: on the two-item batch the messages
are exactly the per-item list `notifsOf`, and on the batch with an unknown
second id the message of the processed first item has been emitted although
the settlement failed. -/
theorem settle_notifications_characterized_witness :
    ((settle storeMain 7 reqDup).outcome = .ok () ∧
      (settle storeMain 7 reqDup).notifs
        = notifsOf storeMain (some "buyer-tok")
            [{ itemId := some "item-a", amount := some 10 },
             { itemId := some "item-b", amount := some 5 }]) ∧
    ((settle storeMain 7 reqBadItem).outcome
        = .error (.invalidItemReference ("item-zzz")) ∧
      (settle storeMain 7 reqBadItem).notifs
        = notifsOf storeMain (some "buyer-tok")
            [{ itemId := some "item-a", amount := some 10 }]) := by
  constructor
  · exact (settle_notifications_characterized storeMain 7 reqDup 15
      (some "buyer-tok")
      [{ itemId := some "item-a", amount := some 10 },
       { itemId := some "item-b", amount := some 5 }]
      rfl rfl rfl).1 ⟨by decide, by decide⟩
  · exact (settle_notifications_characterized storeMain 7 reqBadItem 15
      (some "buyer-tok")
      [{ itemId := some "item-a", amount := some 10 },
       { itemId := some "item-zzz", amount := some 5 }]
      rfl rfl rfl).2
      [{ itemId := some "item-a", amount := some 10 }]
      { itemId := some "item-zzz", amount := some 5 } [] rfl
      (by decide) (by decide) (by decide)

/-- C2: the invariant `your_share + seller_share == payment.amount` fails on
the running code for the item amount `0.3`.  In exact arithmetic the two
share formulas do sum back to the amount (last conjunct), but the process
stores the binary64 values of `amount * 0.10` and `amount * 0.90`
(`routes.py:375-376`); for the binary64 amount nearest `0.3` their exact sum
is one unit in the last place above the stored payment amount (the two
`mkRat` numerators differ by 1), and the binary64 comparison the invariant
would be tested with fails as well. -/
theorem revenue_split_binary64_violation :
    ((addD (your_share_b64 (b64OfPos 3 10)) (seller_share_b64 (b64OfPos 3 10))).toRat
        ≠ (b64OfPos 3 10).toRat ∧
      (addD (your_share_b64 (b64OfPos 3 10)) (seller_share_b64 (b64OfPos 3 10))).toRat
        = mkRat 10808639105689191 36028797018963968 ∧
      (b64OfPos 3 10).toRat = mkRat 10808639105689190 36028797018963968 ∧
      (fadd64 (your_share_b64 (b64OfPos 3 10)) (seller_share_b64 (b64OfPos 3 10))).toRat
        ≠ (b64OfPos 3 10).toRat) ∧
    (∀ a : ℚ, a * 0.10 + a * 0.90 = a) := by
  refine ⟨by decide, ?_⟩
  intro a
  norm_num
  ring

/-- C4: for a payout by an existing user, an amount strictly greater than
the stored balance fails with the insufficient-balance error (HTTP 400) and
changes nothing; an amount less than or equal to the balance (equality
included) proceeds, and — when the external payout call succeeds — the
balance decreases by exactly that amount, so a payout of the full balance
leaves it at `balance - balance`. -/
theorem payout_balance_rules
    (s : Store) (uid : Nat) (amount : ℚ) (extOk : Bool) (user : User)
    (hu : findUser s uid = some user) :
    (user.account_balance < amount →
      create_payout s uid amount extOk = (s, .error .insufficientBalance)) ∧
    (amount ≤ user.account_balance → extOk = true →
      create_payout s uid amount extOk = (debitUser s uid amount, .ok ()) ∧
      balanceOf (debitUser s uid amount) uid
        = some (user.account_balance - amount)) := by
  constructor
  · intro h
    simp only [create_payout, hu, if_pos h]
  · intro h hext
    subst hext
    have hnl : ¬user.account_balance < amount := not_lt.mpr h
    refine ⟨by simp [create_payout, hu, hnl], ?_⟩
    have hgid : ∀ u : User,
        ((fun u : User =>
          if u.id = uid then { u with account_balance := u.account_balance - amount }
          else u) u).id = u.id := by
      intro u; dsimp only; split <;> rfl
    have huid : user.id = uid := findUserL_id hu
    rw [balanceOf, findUser, debitUser]
    show (findUserL (s.users.map _) uid).map _ = _
    rw [findUserL_map _ _ hgid uid]
    rw [findUser] at hu
    rw [hu]
    simp [huid]

/-- C4, witness: with balance 100, a payout of 150 fails and changes
nothing, while a payout of the full 100 debits to exactly 0. -/
theorem payout_balance_rules_witness :
    create_payout storePay 1 150 true = (storePay, .error .insufficientBalance) ∧
    create_payout storePay 1 100 true = (debitUser storePay 1 100, .ok ()) ∧
    balanceOf (debitUser storePay 1 100) 1 = some ((100 : ℚ) - 100) ∧
    (100 : ℚ) - 100 = 0 := by
  have h1 := (payout_balance_rules storePay 1 150 true
    { id := 1, account_balance := 100, fcm_token := none } (by decide)).1 (by decide)
  have h2 := (payout_balance_rules storePay 1 100 true
    { id := 1, account_balance := 100, fcm_token := none } (by decide)).2
    (by decide) rfl
  exact ⟨h1, h2.1, h2.2, by norm_num⟩

/-- C5: when the external processor call raises, neither a payout nor a
transfer touches the store: no local debit happens on any failed external
call, whatever the user and amount. -/
theorem external_failure_no_debit (s : Store) (uid : Nat) (amount : ℚ)
    (acct : Option String) :
    (create_payout s uid amount false).1 = s ∧
    (create_transfer s uid acct false).1 = s := by
  constructor
  · simp only [create_payout]
    cases findUser s uid with
    | none => rfl
    | some u =>
      by_cases h : u.account_balance < amount
      · simp [h]
      · simp [h]
  · simp only [create_transfer]
    by_cases ha : truthyStr acct = false
    · simp [ha]
    · simp only [ha, Bool.false_eq_true, if_false]
      cases findUser s uid with
      | none => rfl
      | some u =>
        by_cases h : u.account_balance ≤ 0
        · simp [h]
        · simp [h]

/-- C9: for a transfer by an existing user (with an account id), a
non-positive balance fails with the insufficient-balance error and changes
nothing; a positive balance sends the entire balance — converted to minor
units, `int(balance * 100)` — to the external processor, and when that call
succeeds the stored balance becomes exactly 0. -/
theorem transfer_zeroes_balance
    (s : Store) (uid : Nat) (acct : Option String) (extOk : Bool) (user : User)
    (hu : findUser s uid = some user) (hacct : truthyStr acct = true) :
    (user.account_balance ≤ 0 →
      create_transfer s uid acct extOk = (s, .error .insufficientBalance)) ∧
    (0 < user.account_balance → extOk = true →
      create_transfer s uid acct extOk
        = (zeroBalance s uid, .ok ⌊user.account_balance * 100⌋) ∧
      balanceOf (zeroBalance s uid) uid = some 0) := by
  have hta : ¬truthyStr acct = false := by simp [hacct]
  constructor
  · intro h
    simp only [create_transfer, hacct, Bool.true_eq_false, if_false, hu, if_pos h]
  · intro h hext
    subst hext
    have hnl : ¬user.account_balance ≤ 0 := not_le.mpr h
    refine ⟨by simp [create_transfer, hta, hu, hnl], ?_⟩
    have hgid : ∀ u : User,
        ((fun u : User =>
          if u.id = uid then { u with account_balance := 0 } else u) u).id = u.id := by
      intro u; dsimp only; split <;> rfl
    have huid : user.id = uid := findUserL_id hu
    rw [balanceOf, findUser, zeroBalance]
    show (findUserL (s.users.map _) uid).map _ = _
    rw [findUserL_map _ _ hgid uid]
    rw [findUser] at hu
    rw [hu]
    simp [huid]

/-- C9, witness: with balance 100, the transfer sends `⌊100 * 100⌋ = 10000`
minor units and zeroes the stored balance; with the zero balance that
results, a further transfer fails with the insufficient-balance error. -/
theorem transfer_zeroes_balance_witness :
    (create_transfer storePay 1 (some "acct-1") true
        = (zeroBalance storePay 1, .ok ⌊(100 : ℚ) * 100⌋) ∧
      balanceOf (zeroBalance storePay 1) 1 = some 0) ∧
    ⌊(100 : ℚ) * 100⌋ = 10000 ∧
    create_transfer (zeroBalance storePay 1) 1 (some "acct-1") true
      = (zeroBalance storePay 1, .error .insufficientBalance) := by
  have h1 := (transfer_zeroes_balance storePay 1 (some "acct-1") true
    { id := 1, account_balance := 100, fcm_token := none }
    (by decide) (by decide)).2 (by decide) rfl
  have h2 := (transfer_zeroes_balance (zeroBalance storePay 1) 1 (some "acct-1") true
    { id := 1, account_balance := 0, fcm_token := none }
    (by simp [zeroBalance, storePay, findUser, findUserL]) (by decide)).1 le_rfl
  exact ⟨h1, by norm_num, h2⟩

end RadioBox
